import Mathlib

/-!
Shallow embedding of the HydraHook runtime interception engine
(nefarius/HydraHook) and proofs about its specification claims.

The definitions below transcribe, function by function, the relevant parts
of the C++ sources:
  * CrashHandler.cpp  (minidump flag derivation, snapshot publish and clear,
    crash output routine)
  * Engine.cpp        (engine registry, create and destroy, custom context)
  * Engine.h          (HookActivityTracker)
  * Game/Game.cpp     (detour bodies, hook installation, teardown sequence)
  * Utils/Hook.h      (Detours transaction wrapper, remove_nothrow)

Machine pointers (HMODULE, PVOID, device interfaces) are modelled as Nat,
fallible OS and Detours primitives as explicit Bool oracles, and observable
actions (callback invocations, heap frees, Detours calls) as traces.
-/

namespace HydraHook

/-- HYDRAHOOK_D3D_VERSION (HydraHookCore.h lines 80 to 86). -/
inductive D3DVersion
  | unknown
  | v9
  | v10
  | v11
  | v12
deriving DecidableEq

/-- HYDRAHOOK_ERROR (HydraHookCore.h lines 62 to 75). -/
inductive HError
  | ERROR_NONE
  | ERROR_INVALID_ENGINE_HANDLE
  | ERROR_CREATE_THREAD_FAILED
  | ERROR_ENGINE_ALLOCATION_FAILED
  | ERROR_ENGINE_ALREADY_ALLOCATED
  | ERROR_INVALID_HMODULE_HANDLE
  | ERROR_REFERENCE_INCREMENT_FAILED
  | ERROR_CONTEXT_ALLOCATION_FAILED
  | ERROR_CREATE_EVENT_FAILED
  | ERROR_CREATE_LOGGER_FAILED
deriving DecidableEq

/-- HYDRAHOOK_DUMP_TYPE (HydraHookCore.h lines 156 to 160). -/
inductive DumpType
  | minimal
  | normal
  | full
deriving DecidableEq

/-! ## Minidump flag derivation (CrashHandler.cpp, GetMiniDumpTypeFlags) -/

/-- MINIDUMP_TYPE flag MiniDumpNormal (DbgHelp). -/
def MiniDumpNormal : Nat := 0x00000000

/-- MINIDUMP_TYPE flag MiniDumpWithDataSegs (DbgHelp). -/
def MiniDumpWithDataSegs : Nat := 0x00000001

/-- MINIDUMP_TYPE flag MiniDumpWithFullMemory (DbgHelp). -/
def MiniDumpWithFullMemory : Nat := 0x00000002

/-- MINIDUMP_TYPE flag MiniDumpWithHandleData (DbgHelp). -/
def MiniDumpWithHandleData : Nat := 0x00000004

/-- MINIDUMP_TYPE flag MiniDumpWithUnloadedModules (DbgHelp). -/
def MiniDumpWithUnloadedModules : Nat := 0x00000020

/-- MINIDUMP_TYPE flag MiniDumpWithThreadInfo (DbgHelp). -/
def MiniDumpWithThreadInfo : Nat := 0x00001000

/-- GetMiniDumpTypeFlags (CrashHandler.cpp lines 117 to 138): maps the
configured dump verbosity to a MINIDUMP_TYPE bit set.  The Normal case is
also the switch default. -/
def GetMiniDumpTypeFlags : DumpType → Nat
  | .minimal => MiniDumpNormal
  | .full =>
      MiniDumpWithFullMemory ||| MiniDumpWithHandleData |||
      MiniDumpWithThreadInfo ||| MiniDumpWithUnloadedModules
  | .normal =>
      MiniDumpNormal ||| MiniDumpWithDataSegs ||| MiniDumpWithHandleData |||
      MiniDumpWithThreadInfo ||| MiniDumpWithUnloadedModules

/-- Flag-set inclusion on MINIDUMP_TYPE bit masks: every bit of a is a bit
of b. -/
def flagSubset (a b : Nat) : Prop := a &&& b = a

instance (a b : Nat) : Decidable (flagSubset a b) := by
  unfold flagSubset
  infer_instance

/-- Strict flag-set inclusion on MINIDUMP_TYPE bit masks. -/
def flagStrictSubset (a b : Nat) : Prop := flagSubset a b ∧ a ≠ b

instance (a b : Nat) : Decidable (flagStrictSubset a b) := by
  unfold flagStrictSubset
  infer_instance

/-! ## Engine record and registry (Engine.h, Engine.cpp) -/

/-- The configuration fields of HYDRAHOOK_ENGINE_CONFIG that the claims
touch: per-API enable flags (Direct3D sub-structure), the crash handler
sub-structure, and whether the lifecycle callbacks are registered (a
registered callback is a non-null function pointer). -/
structure EngineConfig where
  hookDirect3D9 : Bool
  hookDirect3D10 : Bool
  hookDirect3D11 : Bool
  hookDirect3D12 : Bool
  hookCoreAudio : Bool
  crashHandlerEnabled : Bool
  dumpDirectoryPath : String
  dumpType : DumpType
  evtCrashHandler : Option Nat
  evtGameHookedRegistered : Bool
deriving DecidableEq

/-- HYDRAHOOK_ENGINE (Engine.h lines 44 to 73), restricted to the fields
the claims are about.  CustomContext is the user context pointer (none for
the zero-initialized NULL). -/
structure Engine where
  hostInstance : Nat
  gameVersion : D3DVersion
  config : EngineConfig
  customContext : Option Nat
  crashHandlerInstalled : Bool
  renderPipeline : Option Nat
deriving DecidableEq

/-- The process-wide host-module-to-engine map g_EngineHostInstances
(Engine.cpp line 74), as an association list keyed by HMODULE. -/
abbrev EngineRegistry := List (Nat × Engine)

/-- Oracle for the fallible OS steps of HydraHookEngineCreate. -/
structure CreateOracle where
  getModuleHandleOk : Bool
  mallocOk : Bool
  loggerOk : Bool
  eventOk : Bool
  threadOk : Bool
deriving DecidableEq

/-- The engine value built by HydraHookEngineCreate before registration:
ZeroMemory followed by assignment of HostInstance and EngineConfig
(Engine.cpp lines 123 to 125), with CrashHandlerInstalled set when the
crash handler is enabled (lines 175 to 178). -/
def freshEngine (host : Nat) (cfg : EngineConfig) : Engine :=
  { hostInstance := host
    gameVersion := .unknown
    config := cfg
    customContext := none
    crashHandlerInstalled := cfg.crashHandlerEnabled
    renderPipeline := none }

/-- HydraHookEngineCreate (Engine.cpp lines 95 to 225).  Returns the error
code and the registry after the call.  The duplicate-host check is the
first statement; every failure path returns before the final registration
g_EngineHostInstances[HostInstance] = engine (line 222), so the registry
is unchanged unless the call fully succeeds.  (The crash-handler global
side effect is modelled separately by HydraHookCrashHandlerInstall.) -/
def HydraHookEngineCreate (reg : EngineRegistry) (host : Nat)
    (cfg : EngineConfig) (o : CreateOracle) : HError × EngineRegistry :=
  if (List.lookup host reg).isSome then
    (.ERROR_ENGINE_ALREADY_ALLOCATED, reg)
  else if !o.getModuleHandleOk then
    (.ERROR_REFERENCE_INCREMENT_FAILED, reg)
  else if !o.mallocOk then
    (.ERROR_ENGINE_ALLOCATION_FAILED, reg)
  else if !o.loggerOk then
    (.ERROR_CREATE_LOGGER_FAILED, reg)
  else if !o.eventOk then
    (.ERROR_CREATE_EVENT_FAILED, reg)
  else if !o.threadOk then
    (.ERROR_CREATE_THREAD_FAILED, reg)
  else
    (.ERROR_NONE, (host, freshEngine host cfg) :: reg)

/-- Heap-level effect of a call that frees a pointer. -/
inductive HeapAction
  | freePtr (p : Nat)
deriving DecidableEq

/-- HydraHookEngineFreeCustomContext (Engine.cpp lines 277 to 288): frees
the block if CustomContext is non-null and returns success, but never
clears the CustomContext field.  The result is the error code, the engine
after the call, and the heap actions performed. -/
def HydraHookEngineFreeCustomContext :
    Option Engine → HError × Option Engine × List HeapAction
  | none => (.ERROR_INVALID_ENGINE_HANDLE, none, [])
  | some e =>
      match e.customContext with
      | some p => (.ERROR_NONE, some e, [.freePtr p])
      | none => (.ERROR_NONE, some e, [])

/-- HydraHookEngineGetCustomContext (Engine.cpp lines 290 to 297). -/
def HydraHookEngineGetCustomContext : Option Engine → Option Nat
  | none => none
  | some e => e.customContext

/-! ## Crash handler globals (CrashHandler.cpp) -/

/-- CrashConfigSnapshot (CrashHandler.cpp lines 48 to 55).  OwnerEngine is
the PHYDRAHOOK_ENGINE pointer value used only as an identity and callback
argument. -/
structure CrashConfigSnapshot where
  dumpDirectoryPath : String
  hostInstance : Nat
  dumpType : DumpType
  evtCrashHandler : Option Nat
  ownerEngine : Nat
deriving DecidableEq

/-- The process-wide crash handler globals: s_refCount, s_snapshot and
whether the four global handlers are currently registered (a summary of
the four saved previous-handler slots, lines 37 to 44). -/
structure CrashGlobals where
  refCount : Int
  snapshot : Option CrashConfigSnapshot
  handlersInstalled : Bool
deriving DecidableEq

/-- MakeSnapshot (CrashHandler.cpp lines 401 to 414), with the engine
pointer value passed explicitly as engineId. -/
def MakeSnapshot (engineId : Nat) (host : Nat) (cfg : EngineConfig) :
    CrashConfigSnapshot :=
  { dumpDirectoryPath := cfg.dumpDirectoryPath
    hostInstance := host
    dumpType := cfg.dumpType
    evtCrashHandler := cfg.evtCrashHandler
    ownerEngine := engineId }

/-- HydraHookCrashHandlerInstall (CrashHandler.cpp lines 416 to 447): the
0 to 1 refcount transition publishes the snapshot and registers the four
global handlers; later installers only increment the count. -/
def HydraHookCrashHandlerInstall (engineId : Nat) (host : Nat)
    (cfg : EngineConfig) (s : CrashGlobals) : CrashGlobals :=
  if s.refCount = 0 then
    { refCount := s.refCount + 1
      snapshot := some (MakeSnapshot engineId host cfg)
      handlersInstalled := true }
  else
    { s with refCount := s.refCount + 1 }

/-- HydraHookCrashHandlerUninstall (CrashHandler.cpp lines 449 to 488):
returns unchanged when the count is not positive; otherwise decrements,
clears the snapshot when the uninstalling engine owns it, and restores the
saved handlers on the final (1 to 0) transition. -/
def HydraHookCrashHandlerUninstall (engineId : Nat) (s : CrashGlobals) :
    CrashGlobals :=
  if s.refCount ≤ 0 then s
  else
    let prev := s.refCount
    let s1 : CrashGlobals := { s with refCount := prev - 1 }
    let s2 : CrashGlobals :=
      match s1.snapshot with
      | some snap =>
          if snap.ownerEngine = engineId then { s1 with snapshot := none }
          else s1
      | none => s1
    if prev = 1 then { s2 with handlersInstalled := false } else s2

/-- Observable outcome of one run of the crash output routine: the engine
pointer handed to the veto callback if it was invoked, whether a minidump
file was written, and with which MINIDUMP_TYPE flags. -/
structure CrashOutcome where
  vetoInvokedOwner : Option Nat
  dumpWritten : Bool
  dumpFlags : Option Nat
deriving DecidableEq

/-- WriteCrashDump (CrashHandler.cpp lines 191 to 316), control flow after
the logging prologue (the logger is assumed present; without it the
routine returns at line 198 with no observable action).  vetoReturns is
the Bool the user callback would return, fileCreateOk models CreateFileA.
With no snapshot the routine still proceeds: no veto callback runs and the
dump type defaults to Normal (line 297). -/
def WriteCrashDump (snap : Option CrashConfigSnapshot) (vetoReturns : Bool)
    (fileCreateOk : Bool) : CrashOutcome :=
  match snap with
  | some s =>
      match s.evtCrashHandler with
      | some _ =>
          if !vetoReturns then
            { vetoInvokedOwner := some s.ownerEngine
              dumpWritten := false
              dumpFlags := none }
          else if fileCreateOk then
            { vetoInvokedOwner := some s.ownerEngine
              dumpWritten := true
              dumpFlags := some (GetMiniDumpTypeFlags s.dumpType) }
          else
            { vetoInvokedOwner := some s.ownerEngine
              dumpWritten := false
              dumpFlags := none }
      | none =>
          if fileCreateOk then
            { vetoInvokedOwner := none
              dumpWritten := true
              dumpFlags := some (GetMiniDumpTypeFlags s.dumpType) }
          else
            { vetoInvokedOwner := none
              dumpWritten := false
              dumpFlags := none }
  | none =>
      if fileCreateOk then
        { vetoInvokedOwner := none
          dumpWritten := true
          dumpFlags := some (GetMiniDumpTypeFlags DumpType.normal) }
      else
        { vetoInvokedOwner := none
          dumpWritten := false
          dumpFlags := none }

/-! ## Detours transaction wrapper (Utils/Hook.h) -/

/-- Oracle for the four fallible Detours primitives used by remove and
remove_nothrow. -/
structure DetourOracle where
  beginOk : Bool
  updateOk : Bool
  detachOk : Bool
  commitOk : Bool
deriving DecidableEq

/-- Detours API calls emitted by the Hook wrapper. -/
inductive DetourAction
  | transactionBegin
  | updateThread
  | detachCall
  | transactionCommit
  | transactionAbort
deriving DecidableEq

/-- The per-hook state of the Hook template (Utils/Hook.h lines 80 to 84):
target address, detour address, applied flag.  The open-transaction flag is
irrelevant to remove_nothrow, which uses the raw API directly. -/
structure HookState where
  orig : Nat
  detour : Nat
  is_applied : Bool
deriving DecidableEq

/-- Hook::remove_nothrow (Utils/Hook.h lines 293 to 323): a non-throwing
detach.  Returns the Bool result, the hook state after the call, and the
Detours calls made.  On any failing step after DetourTransactionBegin the
transaction is aborted; is_applied_ is cleared only after a successful
commit (line 321). -/
def remove_nothrow (h : HookState) (o : DetourOracle) :
    Bool × HookState × List DetourAction :=
  if !h.is_applied then (true, h, [])
  else if !o.beginOk then (false, h, [.transactionBegin])
  else if !o.updateOk then
    (false, h, [.transactionBegin, .updateThread, .transactionAbort])
  else if !o.detachOk then
    (false, h, [.transactionBegin, .updateThread, .detachCall, .transactionAbort])
  else if !o.commitOk then
    (false, h, [.transactionBegin, .updateThread, .detachCall,
                .transactionCommit, .transactionAbort])
  else
    (true, { h with is_applied := false },
     [.transactionBegin, .updateThread, .detachCall, .transactionCommit])

/-! ## HookActivityTracker (Engine.h lines 83 to 141) -/

/-- The two process-wide atomics of HookActivityTracker: s_active and
s_shutting_down. -/
structure TrackerState where
  active : Int
  shuttingDown : Bool
deriving DecidableEq

/-- Guard construction (Engine.h lines 99 to 103): increments the in-flight
count and samples the shutting-down flag once; the sampled Bool decides
whether the callbacks of this call run. -/
def guardEnterTracker (s : TrackerState) : TrackerState × Bool :=
  ({ s with active := s.active + 1 }, !s.shuttingDown)

/-- Guard destruction (Engine.h lines 105 to 108): decrements the in-flight
count. -/
def guardExitTracker (s : TrackerState) : TrackerState :=
  { s with active := s.active - 1 }

/-- HookActivityTracker::shutdown (Engine.h lines 115 to 118). -/
def trackerShutdown (s : TrackerState) : TrackerState :=
  { s with shuttingDown := true }

/-- Exit condition of the HookActivityTracker::drain spin loop (Engine.h
lines 130 to 140): the loop only returns true once the in-flight count is
no longer positive. -/
def trackerDrained (s : TrackerState) : Bool :=
  decide (s.active ≤ 0)

/-! ## Device probing of shared DXGI entry points (Game/Game.cpp) -/

/-- Which device interfaces a swap chain object answers GetDevice for. -/
structure SwapChainDev where
  hasD3D10 : Bool
  hasD3D11 : Bool
  hasD3D12 : Bool
deriving DecidableEq

/-- Version resolution performed once inside the shared D3D10/D3D11 DXGI
Present detour (Game.cpp lines 624 to 656): GetDevice(ID3D10Device) is
tried first, then GetDevice(ID3D11Device); ID3D12Device is never probed
here.  On double failure the static deviceVersion stays Unknown. -/
def present10ProbeVersion (c : SwapChainDev) : D3DVersion :=
  if c.hasD3D10 then .v10
  else if c.hasD3D11 then .v11
  else .unknown

/-- Per-call version resolution of the Present1 detour (Game.cpp lines
1359 to 1484): GetDevice(ID3D12Device), then GetDevice(ID3D11Device), then
GetDevice(ID3D10Device). -/
def present1ProbeVersion (c : SwapChainDev) : D3DVersion :=
  if c.hasD3D12 then .v12
  else if c.hasD3D11 then .v11
  else if c.hasD3D10 then .v10
  else .unknown

/-- Per-call version resolution of the ResizeBuffers1 detour (Game.cpp
lines 1503 to 1625): the same GetDevice chain as Present1. -/
def resizeBuffers1ProbeVersion (c : SwapChainDev) : D3DVersion :=
  if c.hasD3D12 then .v12
  else if c.hasD3D11 then .v11
  else if c.hasD3D10 then .v10
  else .unknown

/-- Modelled from the spec wording of claim C2 for comparison with the
source functions: probe the object for ID3D12Device first, then
ID3D11Device, then ID3D10Device, the first successful probe deciding. -/
def specSharedProbeVersion (c : SwapChainDev) : D3DVersion :=
  if c.hasD3D12 then .v12
  else if c.hasD3D11 then .v11
  else if c.hasD3D10 then .v10
  else .unknown

/-! ## Detour dispatch traces (Game/Game.cpp) -/

/-- The API family owning a callback table. -/
inductive ApiFamily
  | d3d9
  | d3d10
  | d3d11
  | d3d12
deriving DecidableEq

/-- Which callback pair of the family a detour invokes. -/
inductive CallbackKind
  | present
  | presentEx
  | reset
deriving DecidableEq

/-- One-shot gates (static std::once_flag instances) of the modelled
detours.  Each detour, and each dispatch branch of the Present1 detour,
owns its own flag: g9 for present9Hook (Game.cpp line 460), g9ex for
present9ExHook (line 536), g10 for swapChainPresent10Hook (line 624), g11
for swapChainPresent11Hook (line 887), g12 for swapChainPresent12Hook
(line 1192), and g1d12 / g1d11 / g1d10 for the three branches of
swapChainPresent1Hook (lines 1369, 1412, 1455). -/
inductive Gate
  | g9
  | g9ex
  | g10
  | g11
  | g12
  | g1d12
  | g1d11
  | g1d10
deriving DecidableEq

/-- Which one-shot gates have fired. -/
abbrev GateState := Gate → Bool

/-- Firing a gate (the call_once body ran). -/
def setGate (st : GateState) (g : Gate) : GateState :=
  fun x => if x = g then true else st x

/-- Observable events emitted by a detour invocation.  The extension
argument of pre and post is the {engine, customContext} payload built by
HYDRAHOOK_EVT_PRE_EXTENSION_INIT, or none for callback families invoked
without an extension structure.  guardEnter and guardExit are the
HookActivityTracker::Guard effects a detour would emit if it constructed
one. -/
inductive Event
  | gameHooked (src : Gate) (v : D3DVersion)
  | pre (f : ApiFamily) (k : CallbackKind) (ext : Option (Nat × Nat))
  | callOrig
  | post (f : ApiFamily) (k : CallbackKind) (ext : Option (Nat × Nat))
  | guardEnter
  | guardExit
deriving DecidableEq

/-- The engine-derived inputs a detour body reads: the engine pointer
value, the CustomContext pointer value, which callbacks are registered
(non-null), the per-API enable flags read by the Present1 dispatch, and
the device interfaces of the swap chain being presented. -/
structure DispatchEnv where
  engineId : Nat
  customContext : Nat
  evtGameHooked : Bool
  pre9 : Bool
  post9 : Bool
  pre9Ex : Bool
  post9Ex : Bool
  preReset9 : Bool
  postReset9 : Bool
  pre10 : Bool
  post10 : Bool
  pre11 : Bool
  post11 : Bool
  pre12 : Bool
  post12 : Bool
  hook10 : Bool
  hook11 : Bool
  hook12 : Bool
  chain : SwapChainDev
deriving DecidableEq

/-- The {engine, customContext} extension payload
(HYDRAHOOK_EVT_PRE_EXTENSION_INIT, HydraHookCore.h lines 113 to 122). -/
def extPayload (env : DispatchEnv) : Option (Nat × Nat) :=
  some (env.engineId, env.customContext)

/-- Detour body of present9Hook (Game.cpp lines 452 to 478): one-shot gate
captures the device and fires GameHooked(v9) if registered, then PrePresent
(no extension for D3D9 callbacks), the original, PostPresent. -/
def stepPresent9 (env : DispatchEnv) (st : GateState) :
    GateState × List Event :=
  let gateEvts :=
    if st .g9 then []
    else if env.evtGameHooked then [Event.gameHooked .g9 .v9] else []
  (setGate st .g9,
   gateEvts ++ (if env.pre9 then [Event.pre .d3d9 .present none] else [])
     ++ [Event.callOrig]
     ++ (if env.post9 then [Event.post .d3d9 .present none] else []))

/-- Detour body of present9ExHook (Game.cpp lines 527 to 556): its own
one-shot gate, also firing GameHooked(v9). -/
def stepPresentEx9 (env : DispatchEnv) (st : GateState) :
    GateState × List Event :=
  let gateEvts :=
    if st .g9ex then []
    else if env.evtGameHooked then [Event.gameHooked .g9ex .v9] else []
  (setGate st .g9ex,
   gateEvts ++ (if env.pre9Ex then [Event.pre .d3d9 .presentEx none] else [])
     ++ [Event.callOrig]
     ++ (if env.post9Ex then [Event.post .d3d9 .presentEx none] else []))

/-- Detour body of reset9Hook (Game.cpp lines 482 to 501): no GameHooked
gate, just PreReset, original, PostReset. -/
def stepReset9 (env : DispatchEnv) (st : GateState) :
    GateState × List Event :=
  (st,
   (if env.preReset9 then [Event.pre .d3d9 .reset none] else [])
     ++ [Event.callOrig]
     ++ (if env.postReset9 then [Event.post .d3d9 .reset none] else []))

/-- Detour body of swapChainPresent1Hook (Game.cpp lines 1352 to 1485):
per-call device probe in the order D3D12, D3D11, D3D10; each branch is
gated on the corresponding enable flag and has its own one-shot GameHooked
gate; the D3D10 branch invokes its callbacks without an extension; any
probe or enable-flag failure falls through to a bare call of the
original. -/
def stepPresent1 (env : DispatchEnv) (st : GateState) :
    GateState × List Event :=
  if env.chain.hasD3D12 then
    if env.hook12 then
      let gateEvts :=
        if st .g1d12 then []
        else if env.evtGameHooked then [Event.gameHooked .g1d12 .v12] else []
      (setGate st .g1d12,
       gateEvts
         ++ (if env.pre12 then [Event.pre .d3d12 .present (extPayload env)] else [])
         ++ [Event.callOrig]
         ++ (if env.post12 then [Event.post .d3d12 .present (extPayload env)] else []))
    else (st, [Event.callOrig])
  else if env.chain.hasD3D11 then
    if env.hook11 then
      let gateEvts :=
        if st .g1d11 then []
        else if env.evtGameHooked then [Event.gameHooked .g1d11 .v11] else []
      (setGate st .g1d11,
       gateEvts
         ++ (if env.pre11 then [Event.pre .d3d11 .present (extPayload env)] else [])
         ++ [Event.callOrig]
         ++ (if env.post11 then [Event.post .d3d11 .present (extPayload env)] else []))
    else (st, [Event.callOrig])
  else if env.chain.hasD3D10 then
    if env.hook10 then
      let gateEvts :=
        if st .g1d10 then []
        else if env.evtGameHooked then [Event.gameHooked .g1d10 .v10] else []
      (setGate st .g1d10,
       gateEvts
         ++ (if env.pre10 then [Event.pre .d3d10 .present none] else [])
         ++ [Event.callOrig]
         ++ (if env.post10 then [Event.post .d3d10 .present none] else []))
    else (st, [Event.callOrig])
  else (st, [Event.callOrig])

/-- The hooked entry points modelled for the GameHooked ordering claims. -/
inductive EntryPoint
  | present9
  | presentEx9
  | reset9
  | present1
deriving DecidableEq

/-- Dispatch of one invocation of a hooked entry point. -/
def step (env : DispatchEnv) (st : GateState) : EntryPoint → GateState × List Event
  | .present9 => stepPresent9 env st
  | .presentEx9 => stepPresentEx9 env st
  | .reset9 => stepReset9 env st
  | .present1 => stepPresent1 env st

/-- Running a sequence of entry-point invocations from a gate state,
concatenating the emitted events. -/
def run (env : DispatchEnv) (st : GateState) : List EntryPoint → GateState × List Event
  | [] => (st, [])
  | ep :: rest =>
      let r1 := step env st ep
      let r2 := run env r1.1 rest
      (r2.1, r1.2 ++ r2.2)

/-- True on GameHooked events. -/
def isGameHookedEvt : Event → Bool
  | .gameHooked _ _ => true
  | _ => false

/-- Number of GameHooked events in a trace. -/
def gameHookedCount (t : List Event) : Nat :=
  (t.filter isGameHookedEvt).length

/-- True on GameHooked events emitted by the gate g. -/
def isGameHookedFrom (g : Gate) : Event → Bool
  | .gameHooked src _ => decide (src = g)
  | _ => false

/-- Number of GameHooked events emitted by the gate g in a trace. -/
def gameHookedFromCount (g : Gate) (t : List Event) : Nat :=
  (t.filter (isGameHookedFrom g)).length

/-- Detour body of swapChainPresent11Hook (Game.cpp lines 866 to 926): a
failed GetDevice(ID3D11Device) probe calls only the original, skipping the
gate and both callbacks; a successful probe runs the one-shot gate, then
PrePresent with the {engine, customContext} extension, the original, and
PostPresent with the same extension.  The Bool is the once flag of this
detour. -/
def swapChainPresent11Detour (env : DispatchEnv) (fired : Bool) :
    Bool × List Event :=
  if !env.chain.hasD3D11 then (fired, [Event.callOrig])
  else
    let gateEvts :=
      if fired then []
      else if env.evtGameHooked then [Event.gameHooked .g11 .v11] else []
    (true,
     gateEvts
       ++ (if env.pre11 then [Event.pre .d3d11 .present (extPayload env)] else [])
       ++ [Event.callOrig]
       ++ (if env.post11 then [Event.post .d3d11 .present (extPayload env)] else []))

/-- The statics of the shared D3D10/D3D11 DXGI Present detour: its once
flag and the file-scope deviceVersion variable (Game.cpp line 602). -/
structure Present10State where
  fired : Bool
  deviceVersion : D3DVersion
deriving DecidableEq

/-- Detour body of swapChainPresent10Hook (Game.cpp lines 618 to 692): the
one-shot gate resolves deviceVersion by probing ID3D10Device then
ID3D11Device and fires GameHooked for the resolved version; every
invocation then dispatches on deviceVersion, invoking the D3D10 callbacks
without an extension or the D3D11 callbacks with the extension, around the
original call. -/
def swapChainPresent10Detour (env : DispatchEnv) (st : Present10State) :
    Present10State × List Event :=
  let st2 :=
    if st.fired then st
    else if env.chain.hasD3D10 then { fired := true, deviceVersion := .v10 }
    else if env.chain.hasD3D11 then { fired := true, deviceVersion := .v11 }
    else { st with fired := true }
  let gateEvts :=
    if st.fired then []
    else if env.chain.hasD3D10 then
      (if env.evtGameHooked then [Event.gameHooked .g10 .v10] else [])
    else if env.chain.hasD3D11 then
      (if env.evtGameHooked then [Event.gameHooked .g10 .v11] else [])
    else []
  let preEvts :=
    (if st2.deviceVersion = .v10 then
       (if env.pre10 then [Event.pre .d3d10 .present none] else [])
     else [])
      ++ (if st2.deviceVersion = .v11 then
            (if env.pre11 then [Event.pre .d3d11 .present (extPayload env)] else [])
          else [])
  let postEvts :=
    (if st2.deviceVersion = .v10 then
       (if env.post10 then [Event.post .d3d10 .present none] else [])
     else [])
      ++ (if st2.deviceVersion = .v11 then
            (if env.post11 then [Event.post .d3d11 .present (extPayload env)] else [])
          else [])
  (st2, gateEvts ++ preEvts ++ [Event.callOrig] ++ postEvts)

/-! ## Hook installation of the Present entry points (Game/Game.cpp) -/

/-- Resolved Present-related vtable addresses per enabled family: the
IDXGISwapChain::Present slot of the throwaway vtable each family
discovers, and the IDXGISwapChain1::Present1 slot when the vtable is large
enough (0 encodes unavailable). -/
structure D3DPresentAddrs where
  p10 : Nat
  p11 : Nat
  p12 : Nat
  p1From10 : Nat
  p1From11 : Nat
  p1From12 : Nat
deriving DecidableEq

/-- A physical Present-entry patch installed by the worker thread. -/
inductive PresentPatch
  | fromD3D10 (addr : Nat)
  | fromD3D11 (addr : Nat)
  | fromD3D12 (addr : Nat)
  | fromPresent1 (addr : Nat)
deriving DecidableEq

/-- The patched address of a Present-entry patch. -/
def patchAddr : PresentPatch → Nat
  | .fromD3D10 a => a
  | .fromD3D11 a => a
  | .fromD3D12 a => a
  | .fromPresent1 a => a

/-- True for the patches on the shared IDXGISwapChain::Present slot (the
Present1 extension hook patches a different function). -/
def isSharedPresentPatch : PresentPatch → Bool
  | .fromPresent1 _ => false
  | _ => true

/-- Present-hook installation sequence of HydraHookMainThread (Game.cpp):
the D3D10 block applies swapChainPresent10Hook and records
dxgiPresentAddress and dxgiPresent1Address (lines 618 to 696); the D3D11
block updates dxgiPresent1Address only if still unset (lines 849 to 854)
and skips all of its DXGI hooks when its Present address equals the one
already hooked for D3D10 (lines 856 to 862); the D3D12 block applies
swapChainPresent12Hook unconditionally and overwrites dxgiPresent1Address
when available (lines 1172 and 1220); finally swapChainPresent1Hook is
applied once on the recorded Present1 address (lines 1348 to 1352).
Installation successes are assumed (no Detours failure). -/
def installPresentHooks (hook10 hook11 hook12 : Bool)
    (vt : D3DPresentAddrs) : List PresentPatch :=
  let patches10 := if hook10 then [PresentPatch.fromD3D10 vt.p10] else []
  let dxgiPresentAddress := if hook10 then vt.p10 else 0
  let dxgiPresent1Address := if hook10 then vt.p1From10 else 0
  let dxgiPresent1Address :=
    if hook11 ∧ dxgiPresent1Address = 0 then vt.p1From11 else dxgiPresent1Address
  let patches11 :=
    if hook11 then
      if dxgiPresentAddress ≠ 0 ∧ vt.p11 = dxgiPresentAddress then []
      else [PresentPatch.fromD3D11 vt.p11]
    else []
  let patches12 := if hook12 then [PresentPatch.fromD3D12 vt.p12] else []
  let dxgiPresent1Address :=
    if hook12 ∧ vt.p1From12 ≠ 0 then vt.p1From12 else dxgiPresent1Address
  let patches1 :=
    if dxgiPresent1Address ≠ 0 then [PresentPatch.fromPresent1 dxgiPresent1Address]
    else []
  patches10 ++ patches11 ++ patches12 ++ patches1

/-- Number of installed patches on a given address. -/
def patchCountAt (l : List PresentPatch) (a : Nat) : Nat :=
  (l.filter (fun p => patchAddr p == a)).length

/-- Number of installed patches on the shared Present slot at a given
address, the Present1 extension patch excluded. -/
def sharedPresentPatchCountAt (l : List PresentPatch) (a : Nat) : Nat :=
  (l.filter (fun p => isSharedPresentPatch p && (patchAddr p == a))).length

/-! ## Worker-thread teardown (Game/Game.cpp lines 1793 to 1858) -/

/-- The Hook instances removed by the teardown block. -/
inductive HookName
  | present9
  | reset9
  | endScene9
  | present9Ex
  | reset9Ex
  | present10
  | resizeTarget10
  | resizeBuffers10
  | present11
  | resizeTarget11
  | resizeBuffers11
  | present1
  | resizeBuffers1
  | createSwapChain12
  | createSwapChainForHwnd12
  | executeCommandLists12
  | present12
  | resizeTarget12
  | resizeBuffers12
  | arcGetBuffer
  | arcReleaseBuffer
deriving DecidableEq

/-- Actions available to the worker-thread teardown.  setShuttingDownFlag
and drainInFlight are the HookActivityTracker::shutdown and
HookActivityTracker::drain steps the tracker offers (Engine.h lines 115
and 130). -/
inductive TeardownAction
  | firePreUnhook
  | removeHook (h : HookName)
  | releaseQueueMaps
  | firePostUnhook
  | freeLibraryAndExitThread
  | setShuttingDownFlag
  | drainInFlight
deriving DecidableEq

/-- The teardown sequence HydraHookMainThread performs once the
cancellation event is signaled (Game.cpp lines 1793 to 1858), in source
order. -/
def mainThreadTeardown : List TeardownAction :=
  [ .firePreUnhook,
    .removeHook .present9, .removeHook .reset9, .removeHook .endScene9,
    .removeHook .present9Ex, .removeHook .reset9Ex,
    .removeHook .present10, .removeHook .resizeTarget10,
    .removeHook .resizeBuffers10,
    .removeHook .present11, .removeHook .resizeTarget11,
    .removeHook .resizeBuffers11,
    .removeHook .present1, .removeHook .resizeBuffers1,
    .removeHook .createSwapChain12, .removeHook .createSwapChainForHwnd12,
    .removeHook .executeCommandLists12,
    .removeHook .present12, .removeHook .resizeTarget12,
    .removeHook .resizeBuffers12,
    .releaseQueueMaps,
    .removeHook .arcGetBuffer, .removeHook .arcReleaseBuffer,
    .firePostUnhook, .freeLibraryAndExitThread ]

/-! ## Concrete sample values used by witnesses and counterexamples -/

/-- A configuration with every feature enabled and every callback
registered. -/
def sampleConfig : EngineConfig :=
  { hookDirect3D9 := true
    hookDirect3D10 := true
    hookDirect3D11 := true
    hookDirect3D12 := true
    hookCoreAudio := true
    crashHandlerEnabled := true
    dumpDirectoryPath := ""
    dumpType := .normal
    evtCrashHandler := some 3
    evtGameHookedRegistered := true }

/-- A concrete registered engine with an allocated custom context at
pointer value 42. -/
def sampleEngine : Engine :=
  { hostInstance := 5
    gameVersion := .unknown
    config := sampleConfig
    customContext := some 42
    crashHandlerInstalled := true
    renderPipeline := none }

/-- A dispatch environment with every callback registered, every Direct3D
family enabled, engine pointer 1 and custom context pointer 2, presenting
on the given swap chain. -/
def envAll (chain : SwapChainDev) : DispatchEnv :=
  { engineId := 1
    customContext := 2
    evtGameHooked := true
    pre9 := true
    post9 := true
    pre9Ex := true
    post9Ex := true
    preReset9 := true
    postReset9 := true
    pre10 := true
    post10 := true
    pre11 := true
    post11 := true
    pre12 := true
    post12 := true
    hook10 := true
    hook11 := true
    hook12 := true
    chain := chain }

/-- The initial gate state: no once flag has fired. -/
def noGateFired : GateState := fun _ => false

/-- A published snapshot owned by the engine at pointer value 7, with a
veto callback registered. -/
def c4Snapshot : CrashConfigSnapshot :=
  { dumpDirectoryPath := ""
    hostInstance := 5
    dumpType := .full
    evtCrashHandler := some 3
    ownerEngine := 7 }

/-- Crash handler globals right before the final uninstall: one installer,
the snapshot of engine 7 published, handlers registered. -/
def c4Globals : CrashGlobals :=
  { refCount := 1
    snapshot := some c4Snapshot
    handlersInstalled := true }

/-- A hook that is currently applied. -/
def appliedHook : HookState :=
  { orig := 100, detour := 200, is_applied := true }

/-- A Detours oracle failing at DetourUpdateThread. -/
def updateFailOracle : DetourOracle :=
  { beginOk := true, updateOk := false, detachOk := true, commitOk := true }

/-- Present addresses where the D3D10 and D3D11 discoveries resolve to the
same vtable slot 100 and the D3D10 vtable also exposes Present1 at 50. -/
def sharedAddrs : D3DPresentAddrs :=
  { p10 := 100, p11 := 100, p12 := 0
    p1From10 := 50, p1From11 := 0, p1From12 := 0 }

/-! # Theorems -/

/-! ## Helper lemmas on traces and runs -/

/-- Unfolding lemma for run on a cons cell. -/
theorem run_cons (env : DispatchEnv) (st : GateState) (ep : EntryPoint)
    (rest : List EntryPoint) :
    run env st (ep :: rest) =
      ((run env (step env st ep).1 rest).1,
        (step env st ep).2 ++ (run env (step env st ep).1 rest).2) := rfl

/-- gameHookedFromCount distributes over append. -/
theorem gameHookedFromCount_append (g : Gate) (t1 t2 : List Event) :
    gameHookedFromCount g (t1 ++ t2) =
      gameHookedFromCount g t1 + gameHookedFromCount g t2 := by
  simp [gameHookedFromCount, List.filter_append]

/-- A fired gate stays fired across any dispatch step. -/
theorem step_gate_mono (env : DispatchEnv) (st : GateState)
    (ep : EntryPoint) (g : Gate) (h : st g = true) :
    (step env st ep).1 g = true := by
  cases ep <;>
    simp only [step, stepPresent9, stepPresentEx9, stepReset9, stepPresent1] <;>
    (try split_ifs) <;>
    simp [setGate, h]

/-- A step from a state where the gate g already fired emits no GameHooked
event from g. -/
theorem step_from_count_fired (env : DispatchEnv) (st : GateState)
    (ep : EntryPoint) (g : Gate) (h : st g = true) :
    gameHookedFromCount g (step env st ep).2 = 0 := by
  cases ep <;>
    simp only [step, stepPresent9, stepPresentEx9, stepReset9, stepPresent1] <;>
    split_ifs <;>
    cases g <;>
    simp_all [gameHookedFromCount, isGameHookedFrom, List.filter_append]

/-- A single dispatch step emits at most one GameHooked event from any
given gate. -/
theorem step_from_count_le_one (env : DispatchEnv) (st : GateState)
    (ep : EntryPoint) (g : Gate) :
    gameHookedFromCount g (step env st ep).2 ≤ 1 := by
  cases ep <;>
    simp only [step, stepPresent9, stepPresentEx9, stepReset9, stepPresent1] <;>
    split_ifs <;>
    cases g <;>
    simp [gameHookedFromCount, isGameHookedFrom, List.filter_append]

/-- If a step emits a GameHooked event from gate g then g is fired in the
resulting state. -/
theorem step_from_count_pos (env : DispatchEnv) (st : GateState)
    (ep : EntryPoint) (g : Gate)
    (h : 1 ≤ gameHookedFromCount g (step env st ep).2) :
    (step env st ep).1 g = true := by
  cases ep <;>
    simp only [step, stepPresent9, stepPresentEx9, stepReset9, stepPresent1] at h ⊢ <;>
    split_ifs at h ⊢ <;>
    cases g <;>
    simp_all [gameHookedFromCount, isGameHookedFrom, setGate, List.filter_append]

/-- Once a gate has fired, no further invocation of any entry point emits
another GameHooked event from it. -/
theorem run_from_fired (env : DispatchEnv) (g : Gate) :
    ∀ (s : List EntryPoint) (st : GateState), st g = true →
      gameHookedFromCount g (run env st s).2 = 0 := by
  intro s
  induction s with
  | nil =>
      intro st _
      simp [run, gameHookedFromCount]
  | cons ep rest ih =>
      intro st hst
      rw [run_cons]
      rw [gameHookedFromCount_append]
      have h0 := step_from_count_fired env st ep g hst
      have h1 := step_gate_mono env st ep g hst
      have h2 := ih (step env st ep).1 h1
      omega

/-! ## Claim C1 -/

/-- Claim C1 (code_bug evidence): the claimed teardown discipline is
absent from the code.  The worker-thread teardown performs hook removals
(swapChainPresent11Hook among them) but never performs the
HookActivityTracker::shutdown step that sets the shutting-down flag nor
the HookActivityTracker::drain step that waits for the in-flight counter,
and the Present detour bodies never construct a Guard (no guardEnter in
any trace of the swapChainPresent11Hook detour). -/
theorem c1_teardown_lacks_drain :
    TeardownAction.removeHook .present11 ∈ mainThreadTeardown ∧
    TeardownAction.setShuttingDownFlag ∉ mainThreadTeardown ∧
    TeardownAction.drainInFlight ∉ mainThreadTeardown ∧
    (∀ a b c fired : Bool,
      Event.guardEnter ∉
        (swapChainPresent11Detour (envAll ⟨a, b, c⟩) fired).2) := by
  decide

/-! ## Claim C2 -/

/-- Claim C2 counterexample: on a swap chain exposing both ID3D10Device
and ID3D11Device, the shared D3D10/D3D11 DXGI Present detour resolves the
version to D3D10 because it probes ID3D10Device first, while the probe
order the claim states (ID3D12Device, then ID3D11Device, then
ID3D10Device) would resolve it to D3D11. -/
theorem c2_counterexample_probe_order :
    present10ProbeVersion ⟨true, true, false⟩ = .v10 ∧
    specSharedProbeVersion ⟨true, true, false⟩ = .v11 ∧
    present10ProbeVersion ⟨true, true, false⟩ ≠
      specSharedProbeVersion ⟨true, true, false⟩ := by
  decide

/-- Claim C2 amended: only the Present1 and ResizeBuffers1 detours resolve
the render API version by probing ID3D12Device, then ID3D11Device, then
ID3D10Device in that fixed order; the shared D3D10/D3D11 DXGI Present
detour instead probes ID3D10Device first and then ID3D11Device, never
ID3D12Device. -/
theorem c2_probe_order_amended :
    (∀ a b c : Bool,
      present1ProbeVersion ⟨a, b, c⟩ = specSharedProbeVersion ⟨a, b, c⟩) ∧
    (∀ a b c : Bool,
      resizeBuffers1ProbeVersion ⟨a, b, c⟩ = specSharedProbeVersion ⟨a, b, c⟩) ∧
    (∀ a b c : Bool,
      present10ProbeVersion ⟨a, b, c⟩ =
        if a then D3DVersion.v10
        else if b then D3DVersion.v11
        else D3DVersion.unknown) := by
  decide

/-! ## Claim C3 -/

/-- Claim C3 counterexample: with every callback registered, invoking
Reset, then Present, then PresentEx on a D3D9 host fires GameHooked twice
(once from the present9Hook gate and once from the present9ExHook gate),
and the very first emitted event is the PreReset callback of the D3D9
family, which no GameHooked firing precedes. -/
theorem c3_counterexample_gamehooked :
    gameHookedCount
      (run (envAll ⟨false, false, false⟩) noGateFired
        [.reset9, .present9, .presentEx9]).2 = 2 ∧
    (run (envAll ⟨false, false, false⟩) noGateFired
        [.reset9, .present9, .presentEx9]).2.take 1 =
      [Event.pre .d3d9 .reset none] ∧
    gameHookedCount
      ((run (envAll ⟨false, false, false⟩) noGateFired
        [.reset9, .present9, .presentEx9]).2.take 1) = 0 := by
  decide

/-- Claim C3 amended: every GameHooked firing is guarded by the one-shot
gate of the detour (or Present1 dispatch branch) that emits it, so over
any sequence of entry-point invocations each gate contributes at most one
GameHooked event; the gates are independent of each other, and ungated
detours such as Reset fire their Pre-callbacks without any GameHooked. -/
theorem c3_gamehooked_once_per_gate_amended (env : DispatchEnv)
    (g : Gate) (s : List EntryPoint) (st : GateState)
    (h : st g = false) :
    gameHookedFromCount g (run env st s).2 ≤ 1 := by
  induction s generalizing st with
  | nil =>
      simp [run, gameHookedFromCount]
  | cons ep rest ih =>
      rw [run_cons]
      rw [gameHookedFromCount_append]
      have hle := step_from_count_le_one env st ep g
      by_cases hc : gameHookedFromCount g (step env st ep).2 = 0
      · by_cases hst1 : (step env st ep).1 g = true
        · have h2 := run_from_fired env g rest (step env st ep).1 hst1
          omega
        · have hb : (step env st ep).1 g = false := by
            cases hx : (step env st ep).1 g
            · rfl
            · exact absurd hx hst1
          have h2 := ih (step env st ep).1 hb
          omega
      · have hone : 1 ≤ gameHookedFromCount g (step env st ep).2 := by
          omega
        have h1 := step_from_count_pos env st ep g hone
        have h2 := run_from_fired env g rest (step env st ep).1 h1
        omega

/-- Claim C3 amended, witness: starting with no gate fired, presenting
twice on the D3D9 Present entry point fires GameHooked from the
present9Hook gate at most once. -/
theorem c3_gamehooked_once_witness :
    noGateFired Gate.g9 = false ∧
    gameHookedFromCount Gate.g9
      (run (envAll ⟨false, false, false⟩) noGateFired
        [.present9, .present9]).2 ≤ 1 :=
  ⟨rfl,
   c3_gamehooked_once_per_gate_amended (envAll ⟨false, false, false⟩)
     Gate.g9 [.present9, .present9] noGateFired rfl⟩

/-! ## Claim C4 -/

/-- Claim C4 (code_bug evidence, evaluated at the failing input): when the
uninstalling engine identity 7 is actually supplied to
HydraHookCrashHandlerUninstall, the published snapshot owned by engine 7
is cleared and the count drops to zero, and a fault handled afterwards
sees no snapshot and invokes no veto callback; but the crash path still
writes a minidump with the default Normal flag set rather than degrading
to log-only.  The engine-destroy path itself (Engine.cpp line 239) calls
HydraHookCrashHandlerUninstall with no argument at all, although
CrashHandler.h line 36 declares exactly one engine parameter. -/
theorem c4_uninstall_clears_snapshot_dump_still_written :
    (HydraHookCrashHandlerUninstall 7 c4Globals).snapshot = none ∧
    (HydraHookCrashHandlerUninstall 7 c4Globals).refCount = 0 ∧
    (WriteCrashDump (HydraHookCrashHandlerUninstall 7 c4Globals).snapshot
      true true).vetoInvokedOwner = none ∧
    (WriteCrashDump (HydraHookCrashHandlerUninstall 7 c4Globals).snapshot
      true true).dumpWritten = true ∧
    (WriteCrashDump (HydraHookCrashHandlerUninstall 7 c4Globals).snapshot
      true true).dumpFlags = some (GetMiniDumpTypeFlags .normal) := by
  decide

/-! ## Claim C5 -/

/-- Claim C5 counterexample: with D3D10 and D3D12 enabled and both
families resolving the same Present vtable address 100, the installation
sequence installs two physical patches on that address, because only the
D3D11 block carries the shared-vtable dedup check while the D3D12 block
applies its Present hook unconditionally. -/
theorem c5_counterexample_d3d12_second_patch :
    patchCountAt
      (installPresentHooks true false true
        { p10 := 100, p11 := 0, p12 := 100
          p1From10 := 0, p1From11 := 0, p1From12 := 0 }) 100 = 2 := by
  decide

/-- Claim C5 amended: the shared-vtable dedup covers exactly the
D3D11-against-D3D10 pair: with both enabled and identical Present
addresses the D3D11 DXGI hooks are skipped and exactly one physical patch
sits on the shared Present slot; the D3D12 family installs its Present
patch unconditionally, without any such check. -/
theorem c5_dedup_d3d10_d3d11_amended (vt : D3DPresentAddrs)
    (h0 : vt.p10 ≠ 0) (heq : vt.p11 = vt.p10) :
    sharedPresentPatchCountAt
      (installPresentHooks true true false vt) vt.p10 = 1 := by
  unfold installPresentHooks
  by_cases h1 : vt.p1From10 = 0 <;> by_cases h2 : vt.p1From11 = 0 <;>
    simp [h0, heq, h1, h2, sharedPresentPatchCountAt, isSharedPresentPatch,
      patchAddr, List.filter_append, List.filter_cons]

/-- Claim C5 amended, witness: with D3D10 and D3D11 enabled on identical
Present address 100, the install sequence leaves exactly one patch on the
shared Present slot. -/
theorem c5_dedup_d3d10_d3d11_witness :
    sharedAddrs.p10 ≠ 0 ∧
    sharedAddrs.p11 = sharedAddrs.p10 ∧
    sharedPresentPatchCountAt
      (installPresentHooks true true false sharedAddrs) sharedAddrs.p10 = 1 :=
  ⟨by decide, rfl,
   c5_dedup_d3d10_d3d11_amended sharedAddrs (by decide) rfl⟩

/-! ## Claim C6 -/

/-- Claim C6 counterexample: the flag set derived for Full verbosity is
not a superset of the one derived for Normal, because
MiniDumpWithDataSegs is set in the Normal flags and absent from the Full
flags. -/
theorem c6_counterexample_full_not_superset_normal :
    ¬ flagSubset (GetMiniDumpTypeFlags .normal) (GetMiniDumpTypeFlags .full) := by
  decide

/-- Claim C6 amended: Normal and Full are each strict supersets of
Minimal (which maps to MiniDumpNormal, the empty flag set, meaning
threads and stacks only), Normal adds data segments, handle data, thread
info and unloaded modules, and Full is full process memory plus handle
data, thread info and unloaded modules; but Full is not a superset of
Normal as a flag set, since the data-segments bit belongs to Normal and
not to Full. -/
theorem c6_dump_flag_chain_amended :
    flagStrictSubset (GetMiniDumpTypeFlags .minimal) (GetMiniDumpTypeFlags .normal) ∧
    flagStrictSubset (GetMiniDumpTypeFlags .minimal) (GetMiniDumpTypeFlags .full) ∧
    ¬ flagSubset (GetMiniDumpTypeFlags .normal) (GetMiniDumpTypeFlags .full) ∧
    MiniDumpWithDataSegs &&& GetMiniDumpTypeFlags .normal = MiniDumpWithDataSegs ∧
    MiniDumpWithDataSegs &&& GetMiniDumpTypeFlags .full = 0 := by
  decide

/-! ## Claim C7 -/

/-- Claim C7 counterexample: an invocation of the hooked D3D11 Present
entry point whose swap chain fails the ID3D11Device probe calls only the
original and fires neither the registered Pre- nor Post-callback, and the
shared D3D10 Present detour invokes the registered D3D10 callbacks
without any {engine, customContext} extension data. -/
theorem c7_counterexample_skipped_callbacks :
    (swapChainPresent11Detour (envAll ⟨false, false, false⟩) false).2 =
      [Event.callOrig] ∧
    (swapChainPresent10Detour (envAll ⟨true, false, false⟩)
        ⟨false, .unknown⟩).2 =
      [Event.gameHooked .g10 .v10, Event.pre .d3d10 .present none,
       Event.callOrig, Event.post .d3d10 .present none] := by
  decide

/-- Claim C7 amended: on every invocation of the hooked D3D11 Present
entry point whose device probe succeeds and whose Pre- and Post-callbacks
are registered, the detour invokes the Pre-callback with the
{engine, customContext} extension, then the original, then the
Post-callback with the same extension, in exactly that order; an
invocation whose probe fails calls only the original. -/
theorem c7_pre_orig_post_amended (env : DispatchEnv) (fired : Bool)
    (h : env.chain.hasD3D11 = true)
    (hpre : env.pre11 = true) (hpost : env.post11 = true) :
    (swapChainPresent11Detour env fired).2 =
      (if fired then []
       else if env.evtGameHooked then [Event.gameHooked .g11 .v11] else [])
        ++ [Event.pre .d3d11 .present (some (env.engineId, env.customContext)),
            Event.callOrig,
            Event.post .d3d11 .present (some (env.engineId, env.customContext))] := by
  simp [swapChainPresent11Detour, extPayload, h, hpre, hpost]

/-- Claim C7 amended, witness: on a swap chain exposing ID3D11Device with
all callbacks registered and the gate not yet fired, the detour emits
GameHooked, then Pre with extension (1, 2), the original call, and Post
with the same extension. -/
theorem c7_pre_orig_post_witness :
    (envAll ⟨false, true, false⟩).chain.hasD3D11 = true ∧
    (swapChainPresent11Detour (envAll ⟨false, true, false⟩) false).2 =
      [Event.gameHooked .g11 .v11,
       Event.pre .d3d11 .present (some (1, 2)),
       Event.callOrig,
       Event.post .d3d11 .present (some (1, 2))] := by
  refine ⟨rfl, ?_⟩
  have h := c7_pre_orig_post_amended (envAll ⟨false, true, false⟩) false rfl rfl rfl
  simpa [envAll] using h

/-! ## Claim C8 -/

/-- Claim C8: a second HydraHookEngineCreate call for a host module that
already has a registered engine returns
HYDRAHOOK_ERROR_ENGINE_ALREADY_ALLOCATED and leaves the registry, and
hence the state of the first engine, unchanged: looking the host up after
the failed call still yields the original engine. -/
theorem c8_create_already_exists (reg : EngineRegistry) (host : Nat)
    (cfg : EngineConfig) (o : CreateOracle) (e : Engine)
    (h : List.lookup host reg = some e) :
    HydraHookEngineCreate reg host cfg o =
      (.ERROR_ENGINE_ALREADY_ALLOCATED, reg) ∧
    List.lookup host (HydraHookEngineCreate reg host cfg o).2 = some e := by
  have hs : (List.lookup host reg).isSome = true := by rw [h]; rfl
  refine ⟨?_, ?_⟩ <;> simp [HydraHookEngineCreate, hs, h]

/-- Claim C8 witness: with engine sampleEngine registered for host module
5, a second create call for host 5 fails with AlreadyAllocated and the
registry is unchanged. -/
theorem c8_create_already_exists_witness :
    List.lookup 5 [(5, sampleEngine)] = some sampleEngine ∧
    HydraHookEngineCreate [(5, sampleEngine)] 5 sampleConfig
        ⟨true, true, true, true, true⟩ =
      (.ERROR_ENGINE_ALREADY_ALLOCATED, [(5, sampleEngine)]) :=
  ⟨rfl,
   (c8_create_already_exists [(5, sampleEngine)] 5 sampleConfig
     ⟨true, true, true, true, true⟩ sampleEngine rfl).1⟩

/-! ## Claim C9 -/

/-- Claim C9: for an engine whose CustomContext is non-null,
HydraHookEngineFreeCustomContext frees the block and returns success but
leaves the CustomContext field unchanged, so a subsequent
HydraHookEngineGetCustomContext returns the stale pointer and a second
HydraHookEngineFreeCustomContext call frees the same pointer again. -/
theorem c9_free_custom_context_stale (e : Engine) (p : Nat)
    (h : e.customContext = some p) :
    HydraHookEngineFreeCustomContext (some e) =
      (.ERROR_NONE, some e, [.freePtr p]) ∧
    HydraHookEngineGetCustomContext
      (HydraHookEngineFreeCustomContext (some e)).2.1 = some p ∧
    (HydraHookEngineFreeCustomContext
      (HydraHookEngineFreeCustomContext (some e)).2.1).2.2 = [.freePtr p] := by
  simp [HydraHookEngineFreeCustomContext, HydraHookEngineGetCustomContext, h]

/-- Claim C9 witness: freeing the custom context of sampleEngine (context
pointer 42) succeeds, frees pointer 42 and leaves the engine record
unchanged. -/
theorem c9_free_custom_context_witness :
    sampleEngine.customContext = some 42 ∧
    HydraHookEngineFreeCustomContext (some sampleEngine) =
      (.ERROR_NONE, some sampleEngine, [.freePtr 42]) :=
  ⟨rfl, (c9_free_custom_context_stale sampleEngine 42 rfl).1⟩

/-! ## Claim C10 -/

/-- Claim C10: Hook::remove_nothrow never throws (it is a total function
into Bool in this model); when the hook is not applied it returns true
with no Detours calls and no state change, and when the hook is applied
and any step of the detach transaction fails it returns false and leaves
the applied flag set (the hook state is unchanged), aborting the
transaction whenever one had been opened. -/
theorem c10_remove_nothrow_error_frame (h : HookState) (o : DetourOracle) :
    (h.is_applied = false → remove_nothrow h o = (true, h, [])) ∧
    (h.is_applied = true →
      (o.beginOk = false ∨ o.updateOk = false ∨
       o.detachOk = false ∨ o.commitOk = false) →
      (remove_nothrow h o).1 = false ∧
      (remove_nothrow h o).2.1 = h ∧
      (remove_nothrow h o).2.1.is_applied = true ∧
      (o.beginOk = true →
        DetourAction.transactionAbort ∈ (remove_nothrow h o).2.2)) := by
  obtain ⟨orig, det, app⟩ := h
  obtain ⟨b, u, d, c⟩ := o
  cases app <;> cases b <;> cases u <;> cases d <;> cases c <;>
    simp [remove_nothrow]

/-- Claim C10 witness: removing an applied hook while DetourUpdateThread
fails returns false, leaves the hook applied and unchanged, and aborts
the opened transaction. -/
theorem c10_remove_nothrow_witness :
    (remove_nothrow appliedHook updateFailOracle).1 = false ∧
    (remove_nothrow appliedHook updateFailOracle).2.1 = appliedHook ∧
    (remove_nothrow appliedHook updateFailOracle).2.1.is_applied = true ∧
    DetourAction.transactionAbort ∈
      (remove_nothrow appliedHook updateFailOracle).2.2 := by
  have h := (c10_remove_nothrow_error_frame appliedHook updateFailOracle).2
    rfl (Or.inr (Or.inl rfl))
  exact ⟨h.1, h.2.1, h.2.2.1, h.2.2.2 rfl⟩

end HydraHook
